import Mathlib

/-!
Verification of the `comgeo` repository's 2D vector type.

The repository defines (in `src/vectors.rs`) a generic struct
`Vector<T> { x: T, y: T }` over a coordinate type `T: Signed + Copy`
(`src/meta.rs`), with derived `Default`, `PartialEq`/`Eq`, a `Display`
implementation, named constructors (`with_coords`, `i_hat`, `j_hat`),
`dot` and `cross` products, and operator impls for negation, addition,
subtraction, scalar multiplication and scalar division.

We embed the struct and each operation shallowly, keeping every operation
parametric in the coordinate type `T` with exactly the operations the Rust
code uses, mirroring how each trait method forwards to `T`'s own operator:

* `derive(Default)` fills each field with `T::default()`; we model Rust's
  `Default` by Lean's `Inhabited` (for every Rust primitive numeric type
  the default value is zero, which the corresponding theorem takes as a
  hypothesis and discharges at `Int`).
* `derive(PartialEq)` generates `self.x == other.x && self.y == other.y`;
  we model it as `Vector.beq` over any `BEq T`.
* Rust's `Display` for the vector writes `"[{x}, {y}]"` using the
  coordinate type's own rendering; we model the coordinate renderer as an
  explicit function `T → String`.
* Rust's `/` on signed primitive integers truncates toward zero; Lean's
  `/` on `Int` is Euclidean division, so the integer instantiation of
  scalar division is modelled with `Int.tdiv` (truncated division).
-/

namespace Comgeo

/-- `Vector<T>` from `src/vectors.rs`: a pair of coordinates `x`, `y`
drawn from the coordinate type `T`. -/
structure Vector (T : Type) where
  x : T
  y : T
deriving DecidableEq

variable {T : Type}

/-- `Vector::with_coords(x, y)`: direct field assignment. -/
def Vector.with_coords (x y : T) : Vector T :=
  ⟨x, y⟩

/-- `Vector::i_hat()`: the horizontal unit vector `(one, zero)`. -/
def Vector.i_hat [One T] [Zero T] : Vector T :=
  Vector.with_coords 1 0

/-- `Vector::j_hat()`: the vertical unit vector `(zero, one)`. -/
def Vector.j_hat [One T] [Zero T] : Vector T :=
  Vector.with_coords 0 1

/-- `Vector::dot`: `self.x * other.x + self.y * other.y`. -/
def Vector.dot [Mul T] [Add T] (v w : Vector T) : T :=
  v.x * w.x + v.y * w.y

/-- `Vector::cross`: `self.x * other.y - other.x * self.y`. -/
def Vector.cross [Mul T] [Sub T] (v w : Vector T) : T :=
  v.x * w.y - w.x * v.y

/-- `derive(Default)` on `Vector<T>`: each field is `T::default()`,
modelled by Lean's `Inhabited.default`. -/
def Vector.default [Inhabited T] : Vector T :=
  ⟨(Inhabited.default : T), (Inhabited.default : T)⟩

/-- `derive(PartialEq)` on `Vector<T>`:
`self.x == other.x && self.y == other.y`. -/
def Vector.beq [BEq T] (v w : Vector T) : Bool :=
  (v.x == w.x) && (v.y == w.y)

/-- `impl Neg for Vector<T>`: `with_coords(-self.x, -self.y)`. -/
def Vector.neg [Neg T] (v : Vector T) : Vector T :=
  Vector.with_coords (-v.x) (-v.y)

/-- `impl Add for Vector<T>`:
`with_coords(self.x + other.x, self.y + other.y)`. -/
def Vector.add [Add T] (v w : Vector T) : Vector T :=
  Vector.with_coords (v.x + w.x) (v.y + w.y)

/-- `impl Sub for Vector<T>`:
`with_coords(self.x - other.x, self.y - other.y)`. -/
def Vector.sub [Sub T] (v w : Vector T) : Vector T :=
  Vector.with_coords (v.x - w.x) (v.y - w.y)

/-- `impl Mul<T> for Vector<T>`:
`with_coords(self.x * scalar, self.y * scalar)`. -/
def Vector.mul [Mul T] (v : Vector T) (s : T) : Vector T :=
  Vector.with_coords (v.x * s) (v.y * s)

/-- `impl Div<T> for Vector<T>`:
`with_coords(self.x / scalar, self.y / scalar)`, forwarding to `T`'s own
division operator. -/
def Vector.div [Div T] (v : Vector T) (s : T) : Vector T :=
  Vector.with_coords (v.x / s) (v.y / s)

/-- `impl Display for Vector<T>`: writes `"[{x}, {y}]"`, rendering each
coordinate with the coordinate type's own textual rendering `fT`. -/
def Vector.fmt (fT : T → String) (v : Vector T) : String :=
  "[" ++ fT v.x ++ ", " ++ fT v.y ++ "]"

/-- Rust's `/` on a signed primitive integer type: truncated division
(rounds toward zero), modelled on `Int` by `Int.tdiv`. -/
def rustIntDiv (a b : Int) : Int :=
  Int.tdiv a b

/-- C1: for every coordinate type `T` (any Rust primitive numeric type has
zero as its default value, taken here as the hypothesis `h`), the
default-constructed `Vector<T>` has the additive identity of `T` in both
coordinates: `default() == (T::zero(), T::zero())`. -/
theorem default_is_zero_vector (T : Type) [Inhabited T] [Zero T]
    (h : (Inhabited.default : T) = 0) :
    (Vector.default : Vector T) = Vector.with_coords 0 0 := by
  simp [Vector.default, Vector.with_coords, h]

/-- Witness for C1 at `T = Int`. -/
theorem default_is_zero_vector_witness :
    (Inhabited.default : Int) = 0 ∧
      (Vector.default : Vector Int) = Vector.with_coords 0 0 :=
  ⟨rfl, default_is_zero_vector Int rfl⟩

/-- C2: for every coordinate type `T` and all vectors `v`, `w`, the derived
equality returns `true` iff `v.x == w.x` and `v.y == w.y`, component-wise
with `T`'s own equality and no tolerance. -/
theorem eq_iff_coords_eq (T : Type) [BEq T] (v w : Vector T) :
    v.beq w = true ↔ ((v.x == w.x) = true ∧ (v.y == w.y) = true) := by
  simp [Vector.beq]

/-- C3: the cross product returns `v.x*w.y - w.x*v.y`; in particular
`(42,2).cross((3,1)) == 36`. -/
theorem cross_eq_formula (T : Type) [Mul T] [Sub T] (v w : Vector T) :
    v.cross w = v.x * w.y - w.x * v.y ∧
      (Vector.with_coords (42 : Int) 2).cross (Vector.with_coords 3 1) = 36 :=
  ⟨rfl, by decide⟩

/-- C4: the dot product returns `v.x*w.x + v.y*w.y`; in particular
`(1,0).dot((42,42)) == 42`. -/
theorem dot_eq_formula (T : Type) [Mul T] [Add T] (v w : Vector T) :
    v.dot w = v.x * w.x + v.y * w.y ∧
      (Vector.with_coords (1 : Int) 0).dot (Vector.with_coords 42 42) = 42 :=
  ⟨rfl, by decide⟩

/-- C5: scalar division returns `(v.x/s, v.y/s)` using the coordinate
type's own division operator; for integer coordinate types the division
truncates toward zero (it agrees with Euclidean division on nonnegative
operands and is odd in the numerator), and `(41,24) / 2 == (20,12)`. -/
theorem div_eq_formula (T : Type) [Div T] (v : Vector T) (s : T) :
    v.div s = Vector.with_coords (v.x / s) (v.y / s) ∧
      @Vector.div Int ⟨rustIntDiv⟩ (Vector.with_coords 41 24) 2 =
        Vector.with_coords 20 12 ∧
      (∀ a b : Int, 0 ≤ a → 0 ≤ b → rustIntDiv a b = a / b) ∧
      (∀ a b : Int, rustIntDiv (-a) b = -(rustIntDiv a b)) :=
  ⟨rfl, by decide,
    fun _ _ ha hb => Int.tdiv_eq_ediv ha hb,
    fun a b => Int.neg_tdiv a b⟩

/-- C6: for every coordinate type `T` (with the group laws the spec
assumes of a signed numeric type, and zero as `T`'s default value) and
every vector `v`, `v + (-v)` equals the default-constructed (zero)
vector coordinate-wise. -/
theorem add_neg_eq_default (T : Type) [AddGroup T] [Inhabited T]
    (h : (Inhabited.default : T) = 0) (v : Vector T) :
    v.add v.neg = Vector.default := by
  simp [Vector.add, Vector.neg, Vector.default, Vector.with_coords, h]

/-- Witness for C6 at `T = Int`, `v = (3, -5)`. -/
theorem add_neg_eq_default_witness :
    (Inhabited.default : Int) = 0 ∧
      (Vector.with_coords (3 : Int) (-5)).add
          (Vector.with_coords (3 : Int) (-5)).neg = Vector.default :=
  ⟨rfl, add_neg_eq_default Int rfl (Vector.with_coords 3 (-5))⟩

/-- C7: the cross product is anti-commutative:
`v.cross(w) == -(w.cross(v))`. -/
theorem cross_antiComm (T : Type) [Ring T] (v w : Vector T) :
    v.cross w = -(w.cross v) := by
  simp [Vector.cross, neg_sub]

/-- C8: the horizontal unit vector dotted with any `v` yields `v.x`, and
the vertical unit vector dotted with `v` yields `v.y`. -/
theorem unit_vectors_project (T : Type) [Ring T] (v : Vector T) :
    (Vector.i_hat).dot v = v.x ∧ (Vector.j_hat).dot v = v.y := by
  constructor <;>
    simp [Vector.dot, Vector.i_hat, Vector.j_hat, Vector.with_coords]

/-- C9: textual rendering produces the string `"[x, y]"` with each
coordinate rendered by the coordinate type's own rendering; in particular
rendering `(-42, 0)` produces exactly `"[-42, 0]"`. -/
theorem fmt_brackets (T : Type) (fT : T → String) (v : Vector T) :
    Vector.fmt fT v = "[" ++ fT v.x ++ ", " ++ fT v.y ++ "]" ∧
      Vector.fmt toString (Vector.with_coords (-42 : Int) 0) = "[-42, 0]" :=
  ⟨rfl, by decide⟩

/-- C10: the cross product of any vector with itself is the zero scalar:
`v.cross(v) == zero`. -/
theorem cross_self_eq_zero (T : Type) [Ring T] (v : Vector T) :
    v.cross v = 0 := by
  simp [Vector.cross]

end Comgeo
